import Mathlib

/-!
Verification of the DouyinCrawler fetch-orchestration layer against its
natural-language specification.  Source files are shallowly embedded:
each definition below is a direct translation of a function (or a control
path) of the Python source; comments give the file and line numbers.
-/

namespace DouyinCrawler

/-! ## Resource models (src/pkg/proxy/types.py, src/pkg/account_pool/field.py) -/

/-- src/pkg/proxy/types.py lines 20-30: `IpInfoModel`. -/
structure IpInfoModel where
  ip : String
  port : Nat
  user : String
  protocol : String
  password : String
  expired_time_ts : Nat
  deriving DecidableEq, Repr

/-- src/pkg/proxy/types.py lines 41-49: `is_expired` returns
`self.expired_time_ts < int(time.time())`; `now` stands for
`int(time.time())`. -/
def IpInfoModel.is_expired (m : IpInfoModel) (now : Nat) : Bool :=
  m.expired_time_ts < now

/-- src/pkg/account_pool/field.py line 20: `AccountStatusEnum.NORMAL = 0`. -/
def NORMAL_STATUS : Int := 0

/-- src/pkg/account_pool/field.py line 21: `AccountStatusEnum.INVALID = -1`. -/
def INVALID_STATUS : Int := -1

/-- src/pkg/account_pool/field.py lines 31-41: `AccountInfoModel`. -/
structure AccountInfoModel where
  id : Nat
  account_name : String
  cookies : String
  platform_name : String
  status : Int
  invalid_timestamp : Nat
  deriving DecidableEq, Repr

/-- src/pkg/account_pool/field.py lines 62-68: `AccountWithIpModel`
(credential plus an optional proxy binding). -/
structure AccountWithIpModel where
  account : AccountInfoModel
  ip_info : Option IpInfoModel
  deriving DecidableEq, Repr

/-! ## Credential pool (src/pkg/account_pool/pool.py) -/

/-- src/pkg/account_pool/pool.py lines 166-182: `update_account_status`
sets `account.status = status.value` and
`account.invalid_timestamp = utils.get_current_timestamp()`; `now` stands
for the current timestamp. -/
def update_account_status (account : AccountInfoModel) (status : Int)
    (now : Nat) : AccountInfoModel :=
  { account with status := status, invalid_timestamp := now }

/-- The pool's in-memory list together with the external source it was
loaded from (config/accounts_cookies.xlsx).  The source comment at
pool.py line 179 records that the Excel side is not updated. -/
structure AccountPoolState where
  account_list : List AccountInfoModel
  external_source : List AccountInfoModel
  deriving DecidableEq, Repr

/-- src/pkg/account_pool/pool.py lines 247-254 with 166-182:
`mark_account_invalid` updates the matching in-memory account record
(Python mutates the shared object; here the list entry with the same id)
and leaves the external source untouched. -/
def markAccountInvalid (pool : AccountPoolState) (accountId : Nat)
    (now : Nat) : AccountPoolState :=
  { pool with
    account_list := pool.account_list.map fun a =>
      if a.id = accountId then update_account_status a INVALID_STATUS now
      else a }

/-! ## Request client: response classification (src/douyin/client.py) -/

/-- Error taxonomy of the request client, one constructor per distinct
exception message raised in src/douyin/client.py lines 389-538:
"account unauthorized" (401), "account blocked" (403 or empty/"blocked"
body), "rate limited" (429), "account not logged in" (app status 8),
"account error" (app status 10007/10008), and `DataFetchError` for every
other failure. -/
inductive ApiError where
  | unauthorized
  | blocked
  | rateLimited
  | notLoggedIn
  | accountError
  | dataFetch
  deriving DecidableEq, Repr

/-- The parts of an httpx response that src/douyin/client.py lines
389-518 inspect: the HTTP status code, whether `response.text` is the
empty string or the literal "blocked", whether `response.json()`
succeeds, and the application-level `status_code` field of the JSON
body. -/
structure ApiResponse where
  http_status : Nat
  bodyEmptyOrBlocked : Bool
  jsonParseOk : Bool
  api_status_code : Int
  deriving DecidableEq, Repr

/-- src/douyin/client.py lines 389-518: the classification performed by
one attempt of `DouYinApiClient.request` (after `check_ip_expired`).
Checks in source order: HTTP 401 / 403 / 429 / other non-200, then the
empty-or-"blocked" body, then JSON parse failure, then application
status 8 (not logged in), then application status in [8, 10007, 10008]
(account error); any other non-zero, non-one application status is only
logged and the data is returned. -/
def classifyResponse (r : ApiResponse) : Except ApiError ApiResponse :=
  if r.http_status = 401 then .error .unauthorized
  else if r.http_status = 403 then .error .blocked
  else if r.http_status = 429 then .error .rateLimited
  else if r.http_status ≠ 200 then .error .dataFetch
  else if r.bodyEmptyOrBlocked then .error .blocked
  else if ¬ r.jsonParseOk then .error .dataFetch
  else if r.api_status_code = 8 then .error .notLoggedIn
  else if r.api_status_code ≠ 0 ∧ r.api_status_code ≠ 1 ∧
      (r.api_status_code = 8 ∨ r.api_status_code = 10007 ∨
       r.api_status_code = 10008) then .error .accountError
  else .ok r

/-- src/douyin/client.py line 338: the tenacity decorator
`retry(stop=stop_after_attempt(5), wait=wait_fixed(1))` on `request`.
`env i` is the response the platform produces for the i-th issued HTTP
attempt of the enclosing call sequence; the run starts at attempt index
`i` with `fuel` attempts remaining and returns the first success, or
after exhausting the budget the last attempt's exception (tenacity
re-raises it inside a `RetryError`), together with the number of
attempts actually issued. -/
def tenacityRun (env : Nat → ApiResponse) : Nat → Nat →
    Except ApiError ApiResponse × Nat
  | _, 0 => (.error .dataFetch, 0)
  | i, fuel + 1 =>
    match classifyResponse (env i) with
    | .ok r => (.ok r, 1)
    | .error e =>
      if fuel = 0 then (.error e, 1)
      else
        let rest := tenacityRun env (i + 1) fuel
        (rest.1, rest.2 + 1)

/-- src/douyin/client.py lines 570-573: the exception messages treated
as account-related in `DouYinApiClient.get`. -/
def ApiError.isAccountRelated : ApiError → Bool
  | .unauthorized => true
  | .blocked => true
  | .notLoggedIn => true
  | .accountError => true
  | _ => false

deriving instance DecidableEq for Except

/-- Observable trace of one `DouYinApiClient.get` call:
the final result, how many HTTP attempts were issued with the identity
bound when the call started, how many times `mark_account_invalid` was
called, how many times `update_account_info` was called, and how many
seconds were slept in the rate-limit branch. -/
structure GetTrace where
  result : Except ApiError ApiResponse
  oldIdentityAttempts : Nat
  invalidations : Nat
  rebinds : Nat
  sleptSeconds : Nat
  deriving DecidableEq, Repr

/-- src/douyin/client.py lines 540-606: `DouYinApiClient.get`.
The first `request` call is tenacity-wrapped (5 attempts, all with the
currently bound identity, drawn from `env1`).  If it raises
`RetryError`, the last exception is inspected:
account-related errors mark the account invalid, rebind via
`update_account_info`, and issue one more tenacity-wrapped `request`
with the new identity (stream `env2`); "rate limited" sleeps 10 seconds
and issues one more tenacity-wrapped `request` with the same identity
(the continuation of `env1`); any other error also marks invalid,
rebinds, and retries once with the new identity. -/
def getCall (env1 env2 : Nat → ApiResponse) : GetTrace :=
  let first := tenacityRun env1 0 5
  match first.1 with
  | .ok r =>
    { result := .ok r, oldIdentityAttempts := first.2, invalidations := 0,
      rebinds := 0, sleptSeconds := 0 }
  | .error e =>
    if e.isAccountRelated then
      let second := tenacityRun env2 0 5
      { result := second.1, oldIdentityAttempts := first.2,
        invalidations := 1, rebinds := 1, sleptSeconds := 0 }
    else if e = .rateLimited then
      let second := tenacityRun env1 5 5
      { result := second.1, oldIdentityAttempts := first.2 + second.2,
        invalidations := 0, rebinds := 0, sleptSeconds := 10 }
    else
      let second := tenacityRun env2 0 5
      { result := second.1, oldIdentityAttempts := first.2,
        invalidations := 1, rebinds := 1, sleptSeconds := 0 }

/-! ## Identity binding (src/douyin/client.py lines 169-228) -/

/-- Outcome of one iteration of the `update_account_info` loop:
`get_account_with_ip_info` raises, or it returns an account whose
`pong()` probe fails, or one whose probe succeeds. -/
inductive AcqOutcome where
  | acqError
  | pongFail (acct : AccountWithIpModel)
  | pongOk (acct : AccountWithIpModel)
  deriving DecidableEq, Repr

/-- Whether the iteration produced a usable account. -/
def AcqOutcome.usable : AcqOutcome → Bool
  | .pongOk _ => true
  | _ => false

/-- Trace of one `update_account_info` call: number of acquisition
attempts made, number of accounts marked invalid along the way, and the
bound account (`none` models the final
`Exception("Failed to get valid account after maximum retries")`). -/
structure BindTrace where
  attempts : Nat
  marks : Nat
  bound : Option AccountWithIpModel
  deriving DecidableEq, Repr

/-- src/douyin/client.py lines 181-213: the body of the
`while not have_account and retry_count < max_retries` loop.  `env i`
is the outcome of the i-th acquisition attempt; a probe failure marks
the account invalid (line 206) and continues; an acquisition exception
only sleeps and continues (lines 207-213). -/
def bindLoop (env : Nat → AcqOutcome) : Nat → Nat → Nat → Nat → BindTrace
  | _, 0, attempts, marks => ⟨attempts, marks, none⟩
  | i, fuel + 1, attempts, marks =>
    match env i with
    | .pongOk a => ⟨attempts + 1, marks, some a⟩
    | .pongFail _ => bindLoop env (i + 1) fuel (attempts + 1) (marks + 1)
    | .acqError => bindLoop env (i + 1) fuel (attempts + 1) marks

/-- src/douyin/client.py lines 169-228: `update_account_info` with its
`max_retries = 10` bound. -/
def update_account_info (env : Nat → AcqOutcome) : BindTrace :=
  bindLoop env 0 10 0 0

/-! ## Proxy-expiry check before dispatch (src/douyin/client.py lines 295-316, 338-383) -/

/-- src/douyin/client.py lines 295-316: `check_ip_expired`.  When IP
proxying is enabled, an account is bound, it carries a proxy, and that
proxy is expired, the proxy is marked invalid and replaced by a fresh
one from the proxy pool (`freshProxy` models the value returned by
`proxy_ip_pool.get_proxy()`); the bound credential itself is never
touched. -/
def check_ip_expired (enableIpProxy : Bool)
    (accountInfo : Option AccountWithIpModel) (now : Nat)
    (freshProxy : IpInfoModel) : Option AccountWithIpModel :=
  match accountInfo with
  | none => none
  | some info =>
    match info.ip_info with
    | none => some info
    | some ip =>
      if enableIpProxy && ip.is_expired now then
        some { info with ip_info := some freshProxy }
      else some info

/-- src/douyin/client.py lines 338-383: `request` first awaits
`check_ip_expired` and then dispatches through the proxy of the (possibly
updated) binding (`self._proxies`, lines 100-109). -/
def dispatchProxy (enableIpProxy : Bool)
    (accountInfo : Option AccountWithIpModel) (now : Nat)
    (freshProxy : IpInfoModel) : Option IpInfoModel :=
  match check_ip_expired enableIpProxy accountInfo now freshProxy with
  | none => none
  | some info => info.ip_info

/-! ## Signing (src/douyin/client.py lines 244-293 and the typed operations) -/

/-- Python's `sub in s` on the underlying character lists:
`matchesAt l sub` is `l` starting with `sub`. -/
def matchesAt : List Char → List Char → Bool
  | _, [] => true
  | [], _ :: _ => false
  | c :: cs, d :: ds => c = d && matchesAt cs ds

/-- Python's `sub in s` membership test, character-list form. -/
def containsSub : List Char → List Char → Bool
  | [], sub => sub.isEmpty
  | c :: cs, sub => matchesAt (c :: cs) sub || containsSub cs sub

/-- src/douyin/client.py line 275: the marker whose presence in the URI
makes `_pre_url_params` skip the a_bogus parameter. -/
def searchSingleMarker : String := "/v1/web/general/search/single/"

/-- src/douyin/client.py lines 244-293: `_pre_url_params`.  The final
parameter list is the call's parameters merged with the common and
verify parameters; the signing gateway has already been invoked (line
272) and `aBogus` is the token it produced (`none` when no a_bogus field
could be found on the response).  For every URI not containing the
search marker, a missing token raises, an empty token raises, and
otherwise the token is appended; for the search URI the token is
dropped and no failure occurs. -/
def preUrlParams (uri : String) (urlParams common verify : List (String × String))
    (aBogus : Option String) : Except String (List (String × String)) :=
  let finalParams := urlParams ++ common ++ verify
  if ¬ containsSub uri.data searchSingleMarker.data then
    match aBogus with
    | none => .error "Failed to generate a_bogus signature"
    | some tok =>
      if tok ≠ "" then .ok (finalParams ++ [("a_bogus", tok)])
      else .error "Failed to generate a_bogus signature"
  else .ok finalParams

/-- The typed fetch operations exposed by the client
(src/douyin/client.py lines 792-1081 plus the probe at lines 754-790). -/
inductive FetchOp where
  | search
  | videoDetail
  | comments
  | subComments
  | userInfo
  | userPosts
  | homefeed
  deriving DecidableEq, Repr

/-- The URI each typed operation passes to `get`/`post`
(src/douyin/client.py lines 846, 870, 891, 937, 980, 1007, 1081). -/
def FetchOp.uri : FetchOp → String
  | .search => "/aweme/v1/web/general/search/single/"
  | .videoDetail => "/aweme/v1/web/aweme/detail/"
  | .comments => "/aweme/v1/web/comment/list/"
  | .subComments => "/aweme/v1/web/comment/list/reply/"
  | .userInfo => "/aweme/v1/web/user/profile/other/"
  | .userPosts => "/aweme/v1/web/aweme/post/"
  | .homefeed => "/aweme/v1/web/module/feed/"

/-- Whether the operation's dispatch invokes the signing gateway:
all operations go through `get` (which always calls `_pre_url_params`,
line 555) except the home feed, which is the one `post` call made with
`need_sign=False` (src/douyin/client.py lines 630-633 and 1081). -/
def FetchOp.invokesSign : FetchOp → Bool
  | .homefeed => false
  | _ => true

/-! ## Concurrency gate (src/douyin/core.py lines 53-68,
src/douyin/processors/aweme_processor.py lines 49-104,
src/douyin/processors/comment_processor.py lines 102-129) -/

/-- src/config/base_config.py line 49: the configured bound used for
both semaphores in src/douyin/core.py lines 55-56. -/
def MAX_CONCURRENCY_NUM : Nat := 1

/-- Lifecycle phase of one fetch task
(`get_aweme_detail_async_task` / `get_comments_async_task`): created but
not yet past `async with` (pending), holding the semaphore with its
network call in flight, or completed — the `async with` block exits and
releases the slot on success, error, and cancellation alike. -/
inductive TaskPhase where
  | pending
  | inFlight
  | finished
  deriving DecidableEq, Repr

/-- Number of tasks currently holding a slot. -/
def countInFlight : List TaskPhase → Nat
  | [] => 0
  | .inFlight :: rest => countInFlight rest + 1
  | _ :: rest => countInFlight rest

/-- State of one semaphore-gated task group: the phase of every
scheduled task plus the semaphore's current value
(`asyncio.Semaphore(k)` starts at `k`). -/
structure GateState where
  tasks : List TaskPhase
  sem : Nat
  deriving DecidableEq, Repr

/-- One scheduler step of the gated task group.  `acquire` is a pending
task passing `async with self.crawler_aweme_task_semaphore:` (or the
comment semaphore), possible only when the semaphore value is positive
and decrementing it; `finish` is an in-flight task leaving the
`async with` block — on return, exception, or cancellation — which
increments the value back. -/
inductive GateStep : GateState → GateState → Prop
  | acquire (pre post : List TaskPhase) (s : Nat) :
      GateStep ⟨pre ++ TaskPhase.pending :: post, s + 1⟩
        ⟨pre ++ TaskPhase.inFlight :: post, s⟩
  | finish (pre post : List TaskPhase) (s : Nat) :
      GateStep ⟨pre ++ TaskPhase.inFlight :: post, s⟩
        ⟨pre ++ TaskPhase.finished :: post, s + 1⟩

/-- Initial state: `n` scheduled work units, none started, semaphore
full at its configured bound `k`. -/
def gateInit (k n : Nat) : GateState :=
  ⟨List.replicate n TaskPhase.pending, k⟩

/-- A state the task group can reach from the initial one. -/
def gateReachable (k n : Nat) (st : GateState) : Prop :=
  Relation.ReflTransGen GateStep (gateInit k n) st

/-! ## Search handler keyword loop (src/douyin/handlers/search_handler.py lines 131-287) -/

/-- Result of running one keyword's inner page loop: it finishes
normally (pages exhausted or note budget reached), or some page raises
an unrecoverable exception, or the user interrupts. -/
inductive KwOutcome where
  | ok
  | err
  | cancel
  deriving DecidableEq, Repr

/-- How the whole `search()` call ends: the keyword `for` loop runs to
completion, or the handler `return`s out of `search()` from the
`except Exception` branch (line 277), or `KeyboardInterrupt` is
re-raised (line 246). -/
inductive SearchEnd where
  | completed
  | earlyReturn
  | cancelRaised
  deriving DecidableEq, Repr

/-- Trace of `search()` over the configured keyword list: how many
keywords had their crawl loop entered, whether the checkpoint snapshot
and progress counters were printed
(`OutputFormatter.print_interrupt_info`, lines 237-245 and 256-264), and
how the call ended. -/
structure SearchTrace where
  keywordsEntered : Nat
  printedSnapshot : Bool
  ending : SearchEnd
  deriving DecidableEq, Repr

/-- src/douyin/handlers/search_handler.py lines 131-287: the keyword
`for` loop.  A keyword whose loop completes moves on to the next
keyword; a keyword whose loop raises `KeyboardInterrupt` prints the
snapshot and re-raises (aborting the run); a keyword whose loop raises
any other exception prints the snapshot and then executes `return`,
ending `search()` itself — the remaining keywords are never entered. -/
def runSearch : List KwOutcome → SearchTrace
  | [] => ⟨0, false, .completed⟩
  | .ok :: rest =>
    let t := runSearch rest
    ⟨t.keywordsEntered + 1, t.printedSnapshot, t.ending⟩
  | .err :: _ => ⟨1, true, .earlyReturn⟩
  | .cancel :: _ => ⟨1, true, .cancelRaised⟩

/-! ## Comment pagination and the checkpoint ledger
(src/douyin/processors/comment_processor.py, src/model/m_checkpoint.py) -/

/-- src/model/m_checkpoint.py lines 12-24: `CheckpointNote`. -/
structure CheckpointNote where
  note_id : String
  is_success_crawled : Bool
  is_success_crawled_comments : Bool
  current_note_comment_cursor : String
  deriving DecidableEq, Repr

/-- Modelled from the spec: the checkpoint store module
(repo/checkpoint/checkpoint_store.py) is not among the provided source
files; §4.4 specifies `comments_done(checkpoint_id, item_id)` as "true
only if present and comments_crawled is true".  This is the
`check_note_comments_is_crawled_in_checkpoint` call used by
`batch_get_aweme_comments` (comment_processor.py line 82). -/
def checkNoteCommentsIsCrawled (notes : List CheckpointNote)
    (noteId : String) : Bool :=
  match notes.find? (fun n => n.note_id == noteId) with
  | some n => n.is_success_crawled_comments
  | none => false

/-- Modelled from the spec: §4.4 specifies
`update_item_status(checkpoint_id, item_id, item_crawled?,
comments_crawled?, comment_cursor?)` as an update that sets the given
fields and leaves unspecified fields unchanged.  This is the
`update_note_comment_cursor` call used by `get_aweme_all_comments`
(comment_processor.py lines 176-180 and 211-216); `markDone` is its
`is_success_crawled_comments=True` keyword. -/
def updateNoteCommentCursor (notes : List CheckpointNote)
    (noteId cursor : String) (markDone : Bool) : List CheckpointNote :=
  match notes with
  | [] => []
  | n :: rest =>
    if n.note_id == noteId then
      { n with
        current_note_comment_cursor := cursor,
        is_success_crawled_comments :=
          markDone || n.is_success_crawled_comments } :: rest
    else n :: updateNoteCommentCursor rest noteId cursor markDone

/-- The fields of one `/aweme/v1/web/comment/list/` response that the
pagination loop reads: `has_more`, `cursor`, and the number of comments
in the page. -/
structure CommentPage where
  has_more : Nat
  cursor : Nat
  commentCount : Nat
  deriving DecidableEq, Repr

/-- src/config/base_config.py line 61: `PER_NOTE_MAX_COMMENTS_COUNT`
(0 disables the cap, matching Python truthiness at
comment_processor.py line 192). -/
def PER_NOTE_MAX_COMMENTS_COUNT : Nat := 0

/-- src/douyin/processors/comment_processor.py lines 166-207: the
`while comments_has_more` loop of `get_aweme_all_comments`.  Each
iteration fetches a page, records its `has_more` and `cursor`, skips
accumulation when the page is empty, otherwise accumulates and breaks
once the cap is configured (non-zero) and reached.  `pages` is the
sequence of responses the platform returns; the result is the total
accumulated, the final cursor, and the value of `comments_has_more` at
loop exit (an exhausted `pages` list is reported as `has_more = 1`,
meaning the environment ended before the loop did). -/
def commentsPageLoop (cap : Nat) :
    List CommentPage → Nat → Nat → Nat × Nat × Nat
  | [], total, cursor => (total, cursor, 1)
  | p :: rest, total, _ =>
    if p.commentCount = 0 then
      if p.has_more = 0 then (total, p.cursor, 0)
      else commentsPageLoop cap rest total p.cursor
    else
      let newTotal := total + p.commentCount
      if cap ≠ 0 ∧ newTotal ≥ cap then (newTotal, p.cursor, p.has_more)
      else if p.has_more = 0 then (newTotal, p.cursor, 0)
      else commentsPageLoop cap rest newTotal p.cursor

/-- Result of one `get_aweme_all_comments` call on the checkpoint side:
the loop outcome plus the checkpoint note list after the final
unconditional write at comment_processor.py lines 210-216, which always
passes `is_success_crawled_comments=True` when checkpointing is
enabled. -/
def getAwemeAllComments (cap : Nat) (pages : List CommentPage)
    (startCursor : Nat) (checkpointOn : Bool)
    (notes : List CheckpointNote) (noteId : String) :
    (Nat × Nat × Nat) × List CheckpointNote :=
  let run := commentsPageLoop cap pages 0 startCursor
  let notesAfter :=
    if checkpointOn then
      updateNoteCommentCursor notes noteId (toString run.2.1) true
    else notes
  (run, notesAfter)

/-! ## Concrete response environments used to evaluate the model -/

/-- A successful response: HTTP 200, parseable JSON, app status 0. -/
def okResponse : ApiResponse := ⟨200, false, true, 0⟩

/-- An HTTP 403 response, classified "account blocked". -/
def blockedResponse : ApiResponse := ⟨403, false, true, 0⟩

/-- An HTTP 429 response, classified "rate limited". -/
def rateLimitedResponse : ApiResponse := ⟨429, false, true, 0⟩

/-- Attempt stream whose first response is blocked and whose later
attempts succeed. -/
def envBlockedFirst : Nat → ApiResponse :=
  fun i => if i = 0 then blockedResponse else okResponse

/-- Attempt stream of successes only. -/
def envAllOk : Nat → ApiResponse := fun _ => okResponse

/-- Attempt stream of blocked responses only. -/
def envAllBlocked : Nat → ApiResponse := fun _ => blockedResponse

/-- Attempt stream of rate-limited responses followed by successes from
attempt index 5 on (the retry after the 10 second sleep succeeds). -/
def envRateLimitedThenOk : Nat → ApiResponse :=
  fun i => if i < 5 then rateLimitedResponse else okResponse

/-- Acquisition stream on which every attempt raises inside
`get_account_with_ip_info`. -/
def envAcqAlwaysFails : Nat → AcqOutcome := fun _ => AcqOutcome.acqError

/-! ## Theorems -/

/-- C9 counterexample: the claim states that at the instant `now` equals
the expiry timestamp the endpoint counts as expired
(`is_expired ⇔ now ≥ expiry`).  For the concrete endpoint with expiry
timestamp 5 and `now = 5`, `is_expired` is false while `now ≥ expiry`
holds, so the claimed equivalence fails. -/
theorem C9_is_expired_at_expiry_counterexample :
    ¬ (((⟨"1.2.3.4", 8080, "u", "https://", "p", 5⟩ : IpInfoModel).is_expired 5
          = true) ↔ 5 ≥ (⟨"1.2.3.4", 8080, "u", "https://", "p", 5⟩ :
            IpInfoModel).expired_time_ts) := by
  decide

/-- C9 (amended): `is_expired` holds iff `now` is strictly greater than
the expiry timestamp; in particular at the instant `now` equals the
expiry timestamp the endpoint does not count as expired. -/
theorem C9_is_expired_iff_strictly_after_expiry (m : IpInfoModel) (now : Nat) :
    (m.is_expired now = true ↔ now > m.expired_time_ts) ∧
    m.is_expired m.expired_time_ts = false := by
  constructor
  · simp [IpInfoModel.is_expired]
  · simp [IpInfoModel.is_expired]

/-- C7 counterexample: the claim states that invalidating a credential
twice leaves the state after the second call identical to the state
after the first call.  For a concrete account invalidated at time 1 and
again at time 2, the two states differ: the second call rewrites
`invalid_timestamp` from 1 to 2. -/
theorem C7_double_invalidate_counterexample :
    update_account_status
        (update_account_status
          (⟨1, "a1", "ck", "dy", 0, 0⟩ : AccountInfoModel) INVALID_STATUS 1)
        INVALID_STATUS 2 ≠
      update_account_status
        (⟨1, "a1", "ck", "dy", 0, 0⟩ : AccountInfoModel) INVALID_STATUS 1 := by
  decide

/-- C7 (amended): invalidation is idempotent on the status field — a
second invalidation leaves the status INVALID and equals a single
invalidation performed at the second call's time — but the recorded
invalidation timestamp is rewritten to the current time on every call;
and no invalidation call rewrites the external credential source (the
pool mutates only its in-memory list). -/
theorem C7_invalidate_idempotent_up_to_timestamp
    (a : AccountInfoModel) (t1 t2 : Nat) (pool : AccountPoolState)
    (accountId now : Nat) :
    (update_account_status (update_account_status a INVALID_STATUS t1)
        INVALID_STATUS t2 =
      update_account_status a INVALID_STATUS t2) ∧
    (update_account_status (update_account_status a INVALID_STATUS t1)
        INVALID_STATUS t2).status =
      (update_account_status a INVALID_STATUS t1).status ∧
    (update_account_status (update_account_status a INVALID_STATUS t1)
        INVALID_STATUS t2).invalid_timestamp = t2 ∧
    (markAccountInvalid pool accountId now).external_source =
      pool.external_source := by
  refine ⟨rfl, rfl, rfl, rfl⟩

/-- When a tenacity-wrapped run ends in an error, the whole attempt
budget was consumed. -/
theorem tenacityRun_attempts_of_error (env : Nat → ApiResponse) :
    ∀ fuel i e, (tenacityRun env i fuel).1 = .error e →
      (tenacityRun env i fuel).2 = fuel := by
  intro fuel
  induction fuel with
  | zero => intro i e _; rfl
  | succ n ih =>
    intro i e h
    simp only [tenacityRun] at h ⊢
    cases hc : classifyResponse (env i) with
    | ok r => rw [hc] at h; simp at h
    | error e' =>
      rw [hc] at h
      dsimp only at h ⊢
      by_cases hn : n = 0
      · simp [hn]
      · simp only [hn, if_false] at h ⊢
        rw [ih (i + 1) e h]

/-- C1 counterexample: the claim states that whenever the first response
classifies as Blocked, the credential is invalidated exactly once and no
additional retries with the old identity happen before the rotation.  On
the concrete attempt stream whose first response is HTTP 403 (Blocked)
and whose second attempt succeeds, `get` issues a second attempt with
the old identity (the tenacity retry), returns its success, and never
invalidates or rebinds. -/
theorem C1_blocked_first_response_counterexample :
    classifyResponse (envBlockedFirst 0) = .error .blocked ∧
    getCall envBlockedFirst envAllOk =
      { result := .ok okResponse, oldIdentityAttempts := 2,
        invalidations := 0, rebinds := 0, sleptSeconds := 0 } := by
  decide

/-- C1 (amended): rotation happens only after the 5-attempt tenacity
budget of `request` is exhausted.  For every fetch call whose first
tenacity-wrapped run ends in an identity-related failure (Blocked,
Unauthorized, not-logged-in, or account-error as its last exception),
the client has already issued 5 attempts with the old identity; it then
invalidates the current credential exactly once, binds a new credential
exactly once, and retries the call exactly once (one further
tenacity-wrapped request on the new identity) before returning that
retry's result. -/
theorem C1_rotation_after_retry_budget (env1 env2 : Nat → ApiResponse)
    (e : ApiError) (h : (tenacityRun env1 0 5).1 = .error e)
    (ha : e.isAccountRelated = true) :
    getCall env1 env2 =
      { result := (tenacityRun env2 0 5).1, oldIdentityAttempts := 5,
        invalidations := 1, rebinds := 1, sleptSeconds := 0 } := by
  have h5 := tenacityRun_attempts_of_error env1 5 0 e h
  simp only [getCall]
  rw [h]
  simp [ha, h5]

/-- C1 witness: the amended theorem applied to the stream of
all-blocked responses with a succeeding replacement identity. -/
theorem C1_rotation_after_retry_budget_witness :
    getCall envAllBlocked envAllOk =
      { result := (tenacityRun envAllOk 0 5).1, oldIdentityAttempts := 5,
        invalidations := 1, rebinds := 1, sleptSeconds := 0 } :=
  C1_rotation_after_retry_budget envAllBlocked envAllOk .blocked
    (by decide) (by decide)

/-- C5: a fetch call whose tenacity-wrapped run ends in a RateLimited
classification does not invalidate the credential and does not rebind:
`get` sleeps 10 seconds and retries the same call once with the same
identity (the retry draws from the continuation of the same attempt
stream `env1`, not from a replacement identity). -/
theorem C5_rate_limited_no_rotation (env1 env2 : Nat → ApiResponse)
    (h : (tenacityRun env1 0 5).1 = .error .rateLimited) :
    getCall env1 env2 =
      { result := (tenacityRun env1 5 5).1,
        oldIdentityAttempts := 5 + (tenacityRun env1 5 5).2,
        invalidations := 0, rebinds := 0, sleptSeconds := 10 } := by
  have h5 := tenacityRun_attempts_of_error env1 5 0 .rateLimited h
  simp only [getCall]
  rw [h]
  simp [ApiError.isAccountRelated, h5]

/-- C5 witness: the theorem applied to the stream of five rate-limited
responses followed by a success on the post-sleep retry. -/
theorem C5_rate_limited_no_rotation_witness :
    getCall envRateLimitedThenOk envAllOk =
      { result := (tenacityRun envRateLimitedThenOk 5 5).1,
        oldIdentityAttempts := 5 + (tenacityRun envRateLimitedThenOk 5 5).2,
        invalidations := 0, rebinds := 0, sleptSeconds := 10 } :=
  C5_rate_limited_no_rotation envRateLimitedThenOk envAllOk (by decide)

/-- The acquisition loop never makes more attempts than its fuel allows
beyond those already counted. -/
theorem bindLoop_attempts_le (env : Nat → AcqOutcome) :
    ∀ fuel i attempts marks,
      (bindLoop env i fuel attempts marks).attempts ≤ attempts + fuel := by
  intro fuel
  induction fuel with
  | zero => intro i a m; simp [bindLoop]
  | succ n ih =>
    intro i a m
    simp only [bindLoop]
    cases env i with
    | pongOk acct => simp
    | pongFail acct =>
      calc (bindLoop env (i + 1) n (a + 1) (m + 1)).attempts
          ≤ (a + 1) + n := ih (i + 1) (a + 1) (m + 1)
        _ ≤ a + (n + 1) := by omega
    | acqError =>
      calc (bindLoop env (i + 1) n (a + 1) m).attempts
          ≤ (a + 1) + n := ih (i + 1) (a + 1) m
        _ ≤ a + (n + 1) := by omega

/-- When no attempt in the examined window is usable, the loop consumes
all its fuel and ends unbound. -/
theorem bindLoop_exhausts (env : Nat → AcqOutcome) :
    ∀ fuel i attempts marks,
      (∀ j, i ≤ j → j < i + fuel → (env j).usable = false) →
      (bindLoop env i fuel attempts marks).attempts = attempts + fuel ∧
      (bindLoop env i fuel attempts marks).bound = none := by
  intro fuel
  induction fuel with
  | zero => intro i a m _; simp [bindLoop]
  | succ n ih =>
    intro i a m h
    have hi : (env i).usable = false := h i (le_refl i) (by omega)
    simp only [bindLoop]
    cases hc : env i with
    | pongOk acct => rw [hc] at hi; simp [AcqOutcome.usable] at hi
    | pongFail acct =>
      have := ih (i + 1) (a + 1) (m + 1) (fun j hj1 hj2 => h j (by omega) (by omega))
      exact ⟨by rw [this.1]; omega, this.2⟩
    | acqError =>
      have := ih (i + 1) (a + 1) m (fun j hj1 hj2 => h j (by omega) (by omega))
      exact ⟨by rw [this.1]; omega, this.2⟩

/-- C4: when identity binding never finds a usable credential,
`update_account_info` performs exactly its bounded 10 acquisition
attempts and ends with no bound identity — the modelled
`Exception("Failed to get valid account after maximum retries")` —
so no further content calls are issued by this client state; and on any
acquisition stream at all the loop makes at most 10 attempts. -/
theorem C4_bind_identity_exhaustion (env : Nat → AcqOutcome)
    (h : ∀ i, i < 10 → (env i).usable = false) :
    (update_account_info env).attempts = 10 ∧
    (update_account_info env).bound = none ∧
    (∀ env2 : Nat → AcqOutcome, (update_account_info env2).attempts ≤ 10) := by
  have hmain := bindLoop_exhausts env 10 0 0 0
    (fun j _ hj => h j (by omega))
  exact ⟨hmain.1, hmain.2, fun env2 => bindLoop_attempts_le env2 10 0 0 0⟩

/-- C4 witness: the theorem applied to the acquisition stream on which
every attempt raises. -/
theorem C4_bind_identity_exhaustion_witness :
    (update_account_info envAcqAlwaysFails).attempts = 10 ∧
    (update_account_info envAcqAlwaysFails).bound = none ∧
    (∀ env2 : Nat → AcqOutcome, (update_account_info env2).attempts ≤ 10) :=
  C4_bind_identity_exhaustion envAcqAlwaysFails (fun _ _ => rfl)

/-- C6: before every dispatched HTTP call, `request` runs
`check_ip_expired`; the credential of the binding is never changed by
the check (for any proxy-enabled setting), an expired bound proxy is
replaced by the freshly acquired one before dispatch, and — provided the
pool-supplied replacement is itself unexpired — the proxy actually used
for the dispatch is never expired. -/
theorem C6_expired_proxy_replaced_before_dispatch
    (info : AccountWithIpModel) (now : Nat) (fresh : IpInfoModel)
    (hfresh : fresh.is_expired now = false) :
    (∀ enable : Bool,
      (check_ip_expired enable (some info) now fresh).map (·.account) =
        some info.account) ∧
    (∀ ip, info.ip_info = some ip → ip.is_expired now = true →
      check_ip_expired true (some info) now fresh =
        some { info with ip_info := some fresh }) ∧
    (∀ ip, dispatchProxy true (some info) now fresh = some ip →
      ip.is_expired now = false) := by
  refine ⟨?_, ?_, ?_⟩
  · intro enable
    cases hip : info.ip_info with
    | none => simp [check_ip_expired, hip]
    | some ip =>
      by_cases hexp : enable && ip.is_expired now
      · simp [check_ip_expired, hip, hexp]
      · simp [check_ip_expired, hip, hexp]
  · intro ip hip hexp
    simp [check_ip_expired, hip, hexp]
  · intro ip hdisp
    cases hip : info.ip_info with
    | none => simp [dispatchProxy, check_ip_expired, hip] at hdisp
    | some bound =>
      by_cases hexp : bound.is_expired now
      · simp [dispatchProxy, check_ip_expired, hip, hexp] at hdisp
        rw [← hdisp]
        exact hfresh
      · simp [dispatchProxy, check_ip_expired, hip,
          Bool.and_eq_true, hexp] at hdisp
        rw [← hdisp]
        simpa using hexp

/-- C6 witness: a binding whose proxy expired at time 5, checked at time
10 against a fresh proxy expiring at time 100. -/
theorem C6_expired_proxy_replaced_before_dispatch_witness :
    (∀ enable : Bool,
      (check_ip_expired enable
          (some ⟨⟨1, "a1", "ck", "dy", 0, 0⟩,
            some ⟨"1.2.3.4", 8080, "u", "https://", "p", 5⟩⟩) 10
          ⟨"5.6.7.8", 8080, "u", "https://", "p", 100⟩).map (·.account) =
        some ⟨1, "a1", "ck", "dy", 0, 0⟩) ∧
    (∀ ip, (some ⟨"1.2.3.4", 8080, "u", "https://", "p", 5⟩ :
          Option IpInfoModel) = some ip → ip.is_expired 10 = true →
      check_ip_expired true
          (some ⟨⟨1, "a1", "ck", "dy", 0, 0⟩,
            some ⟨"1.2.3.4", 8080, "u", "https://", "p", 5⟩⟩) 10
          ⟨"5.6.7.8", 8080, "u", "https://", "p", 100⟩ =
        some ⟨⟨1, "a1", "ck", "dy", 0, 0⟩,
          some ⟨"5.6.7.8", 8080, "u", "https://", "p", 100⟩⟩) ∧
    (∀ ip, dispatchProxy true
          (some ⟨⟨1, "a1", "ck", "dy", 0, 0⟩,
            some ⟨"1.2.3.4", 8080, "u", "https://", "p", 5⟩⟩) 10
          ⟨"5.6.7.8", 8080, "u", "https://", "p", 100⟩ = some ip →
      ip.is_expired 10 = false) :=
  C6_expired_proxy_replaced_before_dispatch
    ⟨⟨1, "a1", "ck", "dy", 0, 0⟩,
      some ⟨"1.2.3.4", 8080, "u", "https://", "p", 5⟩⟩ 10
    ⟨"5.6.7.8", 8080, "u", "https://", "p", 100⟩ (by decide)

/-- The search operation's URI contains the marker that makes
`_pre_url_params` skip the a_bogus parameter. -/
theorem searchUri_contains_marker :
    containsSub (FetchOp.search.uri).data searchSingleMarker.data = true := by
  decide

/-- No other operation's URI contains the marker. -/
theorem nonSearchUri_no_marker (op : FetchOp) (h : op ≠ FetchOp.search) :
    containsSub (op.uri).data searchSingleMarker.data = false := by
  cases op
  case search => exact absurd rfl h
  all_goals decide

/-- C2 counterexample: the claim states that for every typed fetch
operation except the home-feed fetch, a missing or empty signing token
makes the call fail, and the home-feed fetch is the only operation
dispatched without signing.  The keyword-search fetch is not the home
feed, yet `_pre_url_params` on its URI with no token available succeeds
and returns the parameter list with no a_bogus entry — the search call
is dispatched without the token and does not fail. -/
theorem C2_search_unsigned_counterexample :
    FetchOp.search ≠ FetchOp.homefeed ∧
    preUrlParams (FetchOp.search.uri) [("keyword", "lean")] [] [] none =
      .ok [("keyword", "lean")] := by
  decide

/-- C2 (amended): every typed fetch operation except the home feed
invokes the signing gateway before dispatch (the home feed is the one
call made with need_sign=False); for every signed operation except
keyword search, a missing token fails the call, an empty token fails
the call, and a non-empty token is attached to the dispatched
parameters; the keyword-search fetch, although it invokes the gateway,
is dispatched without the token attached and does not fail when the
token is missing or empty. -/
theorem C2_signing_policy (op : FetchOp)
    (params common verify : List (String × String)) (aBogus : Option String) :
    (op.invokesSign = false ↔ op = FetchOp.homefeed) ∧
    (op ≠ FetchOp.homefeed → op ≠ FetchOp.search →
      preUrlParams (op.uri) params common verify none =
        .error "Failed to generate a_bogus signature" ∧
      preUrlParams (op.uri) params common verify (some "") =
        .error "Failed to generate a_bogus signature" ∧
      (∀ tok : String, tok ≠ "" →
        preUrlParams (op.uri) params common verify (some tok) =
          .ok (params ++ common ++ verify ++ [("a_bogus", tok)]))) ∧
    preUrlParams (FetchOp.search.uri) params common verify aBogus =
      .ok (params ++ common ++ verify) := by
  refine ⟨?_, ?_, ?_⟩
  · cases op <;> simp [FetchOp.invokesSign]
  · intro _ hs
    have hc := nonSearchUri_no_marker op hs
    refine ⟨?_, ?_, ?_⟩
    · simp [preUrlParams, hc]
    · simp [preUrlParams, hc]
    · intro tok htok
      simp [preUrlParams, hc, htok]
  · simp [preUrlParams, searchUri_contains_marker]

/-- C2 witness: the amended theorem applied to the video-detail
operation (a signed, non-search call) with a missing token, extracting
that the call fails, and to the search fetch with a missing token,
extracting that it is dispatched without failure. -/
theorem C2_signing_policy_witness :
    preUrlParams (FetchOp.videoDetail.uri) [] [] [] none =
      .error "Failed to generate a_bogus signature" ∧
    preUrlParams (FetchOp.search.uri) [] [] [] none = .ok [] :=
  ⟨((C2_signing_policy FetchOp.videoDetail [] [] [] none).2.1
      (by decide) (by decide)).1,
    (C2_signing_policy FetchOp.search [] [] [] none).2.2⟩

/-- In-flight counting splits over list concatenation. -/
theorem countInFlight_append (a b : List TaskPhase) :
    countInFlight (a ++ b) = countInFlight a + countInFlight b := by
  induction a with
  | nil => simp [countInFlight]
  | cons x rest ih =>
    cases x <;> (simp [countInFlight, ih]; try omega)

/-- Gate invariant: in every reachable state, the number of in-flight
tasks plus the semaphore value equals the configured bound. -/
theorem gate_invariant (k n : Nat) (st : GateState)
    (h : gateReachable k n st) : countInFlight st.tasks + st.sem = k := by
  induction h with
  | refl =>
    have : countInFlight (List.replicate n TaskPhase.pending) = 0 := by
      induction n with
      | zero => rfl
      | succ m ih => simpa [List.replicate, countInFlight] using ih
    simp [gateInit, this]
  | tail _ step ih =>
    cases step with
    | acquire pre post s =>
      simp only [countInFlight_append, countInFlight] at ih ⊢
      omega
    | finish pre post s =>
      simp only [countInFlight_append, countInFlight] at ih ⊢
      omega

/-- C3: under a configured bound of k, in every state the gated task
group can reach, the number of simultaneously in-flight fetches never
exceeds k — each task acquires its semaphore slot before its network
call and the slot is released unconditionally when the `async with`
block exits, whether by success, error, or cancellation. -/
theorem C3_concurrency_bound (k n : Nat) (st : GateState)
    (h : gateReachable k n st) : countInFlight st.tasks ≤ k := by
  have := gate_invariant k n st h
  omega

/-- C3 witness: with bound 1 and two scheduled tasks, the state reached
after one acquisition has one in-flight task, within the bound. -/
theorem C3_concurrency_bound_witness :
    gateReachable 1 2 ⟨[TaskPhase.inFlight, TaskPhase.pending], 0⟩ ∧
    countInFlight [TaskPhase.inFlight, TaskPhase.pending] ≤ 1 := by
  have hreach : gateReachable 1 2
      ⟨[TaskPhase.inFlight, TaskPhase.pending], 0⟩ :=
    Relation.ReflTransGen.single
      (GateStep.acquire [] [TaskPhase.pending] 0)
  exact ⟨hreach, C3_concurrency_bound 1 2 _ hreach⟩

/-- C8 counterexample: the claim states that when one keyword's crawl
loop hits an unrecoverable error, the remaining keywords are still
processed.  With two configured keywords where the first one's loop
raises, only one keyword is entered and `search()` ends by returning
early: the second keyword is never processed. -/
theorem C8_keyword_error_counterexample :
    runSearch [KwOutcome.err, KwOutcome.ok] =
      ⟨1, true, SearchEnd.earlyReturn⟩ ∧
    (runSearch [KwOutcome.err, KwOutcome.ok]).keywordsEntered ≠ 2 := by
  decide

/-- C8 (amended): when one keyword's crawl loop hits an unrecoverable
handler-level error, the handler prints the checkpoint snapshot and
progress counters and then returns from the whole `search()` call: the
keywords after the failing one are not processed (and a cancellation
likewise ends the run, by re-raising). -/
theorem C8_error_returns_from_search (pre rest : List KwOutcome)
    (hpre : ∀ x ∈ pre, x = KwOutcome.ok) :
    runSearch (pre ++ KwOutcome.err :: rest) =
      ⟨pre.length + 1, true, SearchEnd.earlyReturn⟩ := by
  induction pre with
  | nil => rfl
  | cons x xs ih =>
    have hx : x = KwOutcome.ok := hpre x (List.mem_cons_self x xs)
    subst hx
    have hxs : ∀ y ∈ xs, y = KwOutcome.ok :=
      fun y hy => hpre y (List.mem_cons_of_mem _ hy)
    simp [List.cons_append, runSearch, ih hxs]

/-- C8 witness: three keywords, the second failing — two keywords are
entered, the snapshot is printed, and the search returns early. -/
theorem C8_error_returns_from_search_witness :
    runSearch [KwOutcome.ok, KwOutcome.err, KwOutcome.ok] =
      ⟨2, true, SearchEnd.earlyReturn⟩ :=
  C8_error_returns_from_search [KwOutcome.ok] [KwOutcome.ok]
    (by intro x hx; simpa using hx)

/-- A note present in the ledger is reported comments-done after the
final marking write of `get_aweme_all_comments`. -/
theorem checkNote_after_update (notes : List CheckpointNote)
    (noteId cursor : String)
    (h : (notes.find? (fun n => n.note_id == noteId)).isSome = true) :
    checkNoteCommentsIsCrawled
      (updateNoteCommentCursor notes noteId cursor true) noteId = true := by
  induction notes with
  | nil => simp [List.find?] at h
  | cons n rest ih =>
    by_cases hn : n.note_id = noteId
    · simp [checkNoteCommentsIsCrawled, updateNoteCommentCursor,
        List.find?, hn]
    · have hb : (n.note_id == noteId) = false := by
        simp [hn]
      rw [List.find?_cons_of_neg rest (by simp [hb])] at h
      simpa [checkNoteCommentsIsCrawled, updateNoteCommentCursor, hb]
        using ih h

/-- C10: when the per-item comment cap is configured (non-zero) and the
first comment page already meets it while still reporting more pages,
`get_aweme_all_comments` breaks out of pagination early with
`has_more` still 1, yet the final checkpoint write marks the item's
comments as fully crawled, so the comments-done query that
`batch_get_aweme_comments` uses on resume answers true and the item's
remaining comments are skipped. -/
theorem C10_cap_break_marks_comments_done (cap : Nat) (p : CommentPage)
    (rest : List CommentPage) (startCursor : Nat)
    (notes : List CheckpointNote) (noteId : String)
    (hcap : cap ≠ 0) (hcc : p.commentCount ≠ 0)
    (hge : p.commentCount ≥ cap) (hm : p.has_more = 1)
    (hpresent : (notes.find? (fun n => n.note_id == noteId)).isSome = true) :
    (getAwemeAllComments cap (p :: rest) startCursor true notes noteId).1 =
      (p.commentCount, p.cursor, 1) ∧
    checkNoteCommentsIsCrawled
      (getAwemeAllComments cap (p :: rest) startCursor true notes
        noteId).2 noteId = true := by
  have hloop : commentsPageLoop cap (p :: rest) 0 startCursor =
      (p.commentCount, p.cursor, 1) := by
    simp [commentsPageLoop, hcc, hcap, hge, hm]
  constructor
  · simp [getAwemeAllComments, hloop]
  · have hmark := checkNote_after_update notes noteId
      (toString (p.cursor)) hpresent
    simpa [getAwemeAllComments, hloop] using hmark

/-- C10 witness: cap 5, a single page carrying 5 comments with
`has_more = 1`, and a ledger containing the item. -/
theorem C10_cap_break_marks_comments_done_witness :
    (getAwemeAllComments 5 [⟨1, 42, 5⟩] 0 true
        [⟨"n1", true, false, ""⟩] "n1").1 = (5, 42, 1) ∧
    checkNoteCommentsIsCrawled
      (getAwemeAllComments 5 [⟨1, 42, 5⟩] 0 true
        [⟨"n1", true, false, ""⟩] "n1").2 "n1" = true :=
  C10_cap_break_marks_comments_done 5 ⟨1, 42, 5⟩ [] 0
    [⟨"n1", true, false, ""⟩] "n1" (by decide) (by decide) (by decide)
    (by decide) (by decide)

end DouyinCrawler
